import Mathlib

/-
  Verification development for the Windows focus-tracker plugin
  (src/windows/app_focus_tracker_plugin.cpp).

  The C++ plugin is shallowly embedded: each member function that the
  verified properties refer to becomes a pure Lean function over an
  explicit `PluginState`.  OS-supplied data (window inspection results,
  title-based tab extraction, the current steady-clock time, freshly
  generated session ids) are passed in as arguments, mirroring the spec's
  treatment of WindowInspector / TabInfoExtractor as opaque collaborators.
  Timestamps are modelled as natural numbers (microseconds of a monotonic
  clock); `now - focusStartTime` is natural subtraction, which agrees with
  the C++ computation because the monotonic clock never decreases.
-/

namespace AppFocusTracker

/-- ASCII lowercasing of a single character, as `std::tolower` behaves on
the ASCII range used by the plugin's comparisons. -/
def asciiLower (c : Char) : Char :=
  if 'A' ≤ c ∧ c ≤ 'Z' then Char.ofNat (c.toNat + 32) else c

/-- Lowercase a whole string (the `std::transform(..., std::tolower)` idiom
used by `IsBrowserProcess` and `ExtractBrowserTabInfo`). -/
def lowerStr (s : String) : String :=
  String.mk (s.data.map asciiLower)

/-- Whether `sub` is an initial segment of `l` (character lists). -/
def leadsWith : List Char → List Char → Bool
  | [], _ => true
  | _ :: _, [] => false
  | a :: as, b :: bs => a == b && leadsWith as bs

/-- Whether `sub` occurs contiguously anywhere in `l`
(`std::string::find(key) != npos`). -/
def hasSub (sub : List Char) : List Char → Bool
  | [] => leadsWith sub []
  | b :: bs => leadsWith sub (b :: bs) || hasSub sub bs

/-- String-level substring test used for the browser path fallback. -/
def strHasSub (s sub : String) : Bool :=
  hasSub sub.data s.data

/-- The portion of `s` after its last backslash; the whole string when no
backslash occurs.  Mirrors `find_last_of('\\')` / `substr(last + 1)` in
`ShouldTrackApp`. -/
def afterLastBackslash (s : String) : String :=
  String.mk (s.data.foldl (fun acc c => if c = '\x5c' then [] else acc ++ [c]) [])

/-- Result of resolving a window handle (`GetProcessInfoFromWindow`):
process id (0 on failure), executable path, process name, window title. -/
structure ProcessInfo where
  processId : Nat
  executablePath : String
  processName : String
  windowTitle : String
deriving DecidableEq

/-- The fields of the C++ `AppInfo` that events and the tracking filter
read.  The enrichment fields (`version`, `iconPath`, `metadata`) are not
modelled: no verified property refers to them. -/
structure AppInfo where
  name : String
  identifier : String
  processId : Nat
  executablePath : String
deriving DecidableEq

/-- `CreateAppInfo`, restricted to the modelled fields: name falls back to
the process name when the window title is empty, the identifier is the
executable path.  The same field assignments are performed inline by
`CheckForBrowserTabChanges` when it builds the tab-change `AppInfo`. -/
def createAppInfo (p : ProcessInfo) : AppInfo :=
  { name := if p.windowTitle = "" then p.processName else p.windowTitle
    identifier := p.executablePath
    processId := p.processId
    executablePath := p.executablePath }

/-- The three event kinds the plugin emits. -/
inductive EventType where
  | gained
  | lost
  | durationUpdate
deriving DecidableEq

/-- A call to `SendFocusEvent`: the app the event is about, the event type,
and the reported duration in microseconds.  The remaining event fields
(timestamp, sessionId, eventId, metadata) are not constrained by any
verified property. -/
structure FocusEventReq where
  app : AppInfo
  eventType : EventType
  durationMicroseconds : Nat
deriving DecidableEq

/-- `FocusTrackerConfig` as parsed by `FocusTrackerConfig::FromMap`. -/
structure FocusTrackerConfig where
  updateIntervalMs : Nat
  includeMetadata : Bool
  includeSystemApps : Bool
  enableBrowserTabTracking : Bool
  excludedApps : List String
  includedApps : List String
deriving DecidableEq

/-- The fixed system-executable denylist from `ShouldTrackApp`. -/
def kSystemApps : List String :=
  ["dwm.exe", "explorer.exe", "winlogon.exe", "csrss.exe", "smss.exe"]

/-- `ShouldTrackApp`: excluded apps are dropped; a non-empty included set
restricts to its members; system executables are dropped unless
`includeSystemApps` is set. -/
def shouldTrackApp (config : FocusTrackerConfig) (app : AppInfo) : Bool :=
  if config.excludedApps.contains app.identifier then false
  else if config.includedApps ≠ [] ∧ config.includedApps.contains app.identifier = false then
    false
  else if config.includeSystemApps = false ∧
      kSystemApps.contains (afterLastBackslash app.identifier) then
    false
  else true

/-- `SendFocusEvent` filters every outgoing event through
`shouldTrackApp`; this is the list of emit requests that actually reach
the delivery channel. -/
def deliveredEvents (config : FocusTrackerConfig) (evs : List FocusEventReq) :
    List FocusEventReq :=
  evs.filter (fun e => shouldTrackApp config e.app)

/-! ## EventDeliveryChannel: bounded queue with drop-oldest overflow -/

/-- `kMaxQueueSize` from `QueueEvent`. -/
def kMaxQueueSize : Nat := 1000

/-- The last `n` elements of a list, in order. -/
def takeLast (n : Nat) (l : List α) : List α :=
  l.drop (l.length - n)

/-- The queue mutation performed by `QueueEvent` on a background thread:
push the event, then pop the oldest entries while the size exceeds
`kMaxQueueSize`.  The queue list is oldest-first, as a FIFO. -/
def queuePush (q : List α) (e : α) : List α :=
  if kMaxQueueSize < (q ++ [e]).length then
    (q ++ [e]).drop ((q ++ [e]).length - kMaxQueueSize)
  else q ++ [e]

/-- A sequence of background-thread `QueueEvent` calls with no intervening
flush. -/
def enqueueAll (q : List α) : List α → List α
  | [] => q
  | e :: es => enqueueAll (queuePush q e) es

/-- `QueueEvent`: on the platform thread the event bypasses the queue and
is handed to `SendEventDirectly`, which invokes the sink when one is
registered; otherwise the event is pushed onto the bounded queue and the
platform thread is signalled.  Returns the new queue together with the
list of events delivered synchronously to the consumer. -/
def queueEvent (onPlatformThread : Bool) (sinkRegistered : Bool) (q : List α) (e : α) :
    List α × List α :=
  if onPlatformThread then (q, if sinkRegistered then [e] else [])
  else (queuePush q e, [])

/-- `FlushEventQueue`: swap the queue out and deliver each entry, in
order, to the sink when one is registered.  Returns the delivered list and
the (empty) remaining queue. -/
def flushEventQueue (sinkRegistered : Bool) (q : List α) : List α × List α :=
  (if sinkRegistered then q else [], [])

theorem queuePush_eq_takeLast (q : List α) (e : α) :
    queuePush q e = takeLast kMaxQueueSize (q ++ [e]) := by
  unfold queuePush takeLast
  split
  · rfl
  · next h => rw [Nat.sub_eq_zero_of_le (Nat.le_of_not_lt h), List.drop_zero]

theorem takeLast_append_left (n : Nat) (l m : List α) :
    takeLast n (takeLast n l ++ m) = takeLast n (l ++ m) := by
  unfold takeLast
  rcases le_or_lt l.length n with h | h
  · rw [Nat.sub_eq_zero_of_le h, List.drop_zero]
  · have hk : l.length - n ≤ l.length := Nat.sub_le _ _
    rw [← List.drop_append_of_le_length hk, List.drop_drop]
    congr 1
    simp only [List.length_drop, List.length_append]
    omega

theorem enqueueAll_takeLast (es : List α) (l : List α) :
    enqueueAll (takeLast kMaxQueueSize l) es = takeLast kMaxQueueSize (l ++ es) := by
  induction es generalizing l with
  | nil => simp [enqueueAll]
  | cons e es ih =>
      simp only [enqueueAll]
      rw [queuePush_eq_takeLast, takeLast_append_left, ih]
      simp

theorem enqueueAll_nil_eq_takeLast (es : List α) :
    enqueueAll ([] : List α) es = takeLast kMaxQueueSize es := by
  have h := enqueueAll_takeLast es ([] : List α)
  simpa [takeLast] using h

/-! ## Plugin state and the focus-event state machine -/

/-- The mutable plugin fields the verified properties depend on:
`is_tracking_`, `current_process_id_`, `current_focused_window_` (window
handles modelled as naturals, `0` standing for a null `HWND`),
`focus_start_time_`, `session_id_`, the browser-tab identity map
`last_browser_tab_info_` (an association list keyed by executable path),
and the cross-thread `event_queue_`. -/
structure PluginState where
  is_tracking : Bool
  current_process_id : Nat
  current_focused_window : Nat
  focus_start_time : Nat
  session_id : String
  last_browser_tab_info : List (String × String)
  event_queue : List FocusEventReq
deriving DecidableEq

/-- The state set up by the constructor: not tracking, process id 0. -/
def initialState : PluginState :=
  { is_tracking := false
    current_process_id := 0
    current_focused_window := 0
    focus_start_time := 0
    session_id := ""
    last_browser_tab_info := []
    event_queue := [] }

/-- `OnWindowFocusChanged`.  `procInfo` is the inspection result for the
newly focused window `hwnd`; `prevProcInfo` is the inspection result for
the previously focused window, used by `CreateAppInfo` when building the
`lost` event.  Returns the updated state and the `SendFocusEvent` calls
made, in order. -/
def onWindowFocusChanged (s : PluginState) (hwnd : Nat)
    (procInfo prevProcInfo : ProcessInfo) (now : Nat) :
    PluginState × List FocusEventReq :=
  if s.is_tracking = false ∨ hwnd = 0 then (s, [])
  else if procInfo.processId = 0 then (s, [])
  else
    let lostEvents :=
      if s.current_process_id ≠ 0 ∧ s.current_process_id ≠ procInfo.processId then
        [⟨createAppInfo prevProcInfo, EventType.lost, now - s.focus_start_time⟩]
      else []
    if s.current_process_id ≠ procInfo.processId then
      ({ s with current_process_id := procInfo.processId
                current_focused_window := hwnd
                focus_start_time := now },
       lostEvents ++ [⟨createAppInfo procInfo, EventType.gained, 0⟩])
    else (s, lostEvents)

/-- `SendCurrentFocusEvent`: inspect the foreground window at start time;
on success open the session for it and emit the initial `gained` event
with duration 0. -/
def sendCurrentFocusEvent (s : PluginState) (fgWindow : Nat) (fgInfo : ProcessInfo)
    (now : Nat) : PluginState × List FocusEventReq :=
  if fgWindow = 0 then (s, [])
  else if fgInfo.processId = 0 then (s, [])
  else
    ({ s with current_process_id := fgInfo.processId
              current_focused_window := fgWindow
              focus_start_time := now },
     [⟨createAppInfo fgInfo, EventType.gained, 0⟩])

/-- `StartTracking`: a no-op while already tracking; otherwise flips the
tracking flag, installs the fresh session id and emits the initial focus
event via `sendCurrentFocusEvent`.  The OS hook, timer thread and
browser-tab thread it also spawns live outside the modelled state. -/
def startTracking (s : PluginState) (newSessionId : String) (fgWindow : Nat)
    (fgInfo : ProcessInfo) (now : Nat) : PluginState × List FocusEventReq :=
  if s.is_tracking = true then (s, [])
  else
    sendCurrentFocusEvent
      { s with is_tracking := true, session_id := newSessionId }
      fgWindow fgInfo now

/-- `StopTracking`: a no-op while stopped; otherwise clears the tracking
flag, empties the event queue, clears the tab-identity map (via
`StopBrowserTabTracking`), emits the final `lost` event when a session is
open (`fgInfo` is the inspection of `GetForegroundWindow()` used for its
`AppInfo`), and finally clears process id and session id. -/
def stopTracking (s : PluginState) (fgInfo : ProcessInfo) (now : Nat) :
    PluginState × List FocusEventReq :=
  if s.is_tracking = false then (s, [])
  else
    ({ s with is_tracking := false
              event_queue := []
              last_browser_tab_info := []
              current_process_id := 0
              session_id := "" },
     if s.current_process_id ≠ 0 then
       [⟨createAppInfo fgInfo, EventType.lost, now - s.focus_start_time⟩]
     else [])

/-! ## Browser tab watching -/

/-- The known browser executable names from `IsBrowserProcess`. -/
def kBrowserExecutables : List String :=
  ["chrome.exe", "msedge.exe", "firefox.exe", "brave.exe",
   "opera.exe", "safari.exe", "chromium.exe"]

/-- The path-substring fallback keys from `IsBrowserProcess`. -/
def kBrowserPathKeys : List String :=
  ["chrome", "edge", "firefox", "brave", "opera", "safari", "chromium"]

/-- `IsBrowserProcess`: lowercase executable name matched against the
known set, with a lowercase path-substring fallback. -/
def isBrowserProcess (processName executablePath : String) : Bool :=
  kBrowserExecutables.contains (lowerStr processName)
    || kBrowserPathKeys.any (fun key => strHasSub (lowerStr executablePath) key)

/-- The heuristic result of `ExtractBrowserTabInfo`, treated as an opaque
collaborator: its fields are supplied by the environment. -/
structure BrowserTabInfo where
  domain : String
  url : String
  title : String
  browserType : String
  valid : Bool
deriving DecidableEq

/-- The digit/'.'/',' stripping applied to fallback titles in
`CheckForBrowserTabChanges`. -/
def sanitizeTitle (t : String) : String :=
  String.mk (t.data.filter (fun c => ¬ (('0' ≤ c ∧ c ≤ '9') ∨ c = '.' ∨ c = ',')))

/-- The tab comparison key built by `CheckForBrowserTabChanges`: domain,
else url, else the sanitized extracted title, else the raw window title. -/
def tabComparisonKey (tab : BrowserTabInfo) (windowTitle : String) : String :=
  if tab.domain ≠ "" then tab.domain
  else if tab.url ≠ "" then tab.url
  else if tab.title ≠ "" then sanitizeTitle tab.title
  else windowTitle

/-- First-match lookup in the tab-identity association list
(`last_browser_tab_info_.find`). -/
def lookupTab (m : List (String × String)) (k : String) : Option String :=
  match m with
  | [] => none
  | (k', v) :: rest => if k' = k then some v else lookupTab rest k

/-- Insert-or-update in the tab-identity association list
(`last_browser_tab_info_[key] = value` / `it->second = value`). -/
def setTab (m : List (String × String)) (k v : String) : List (String × String) :=
  match m with
  | [] => [(k, v)]
  | (k', v') :: rest => if k' = k then (k, v) :: rest else (k', v') :: setTab rest k v

/-- `SendBrowserTabChangeEvent`: a `lost` event with the duration
accumulated since `focus_start_time_`, then the timer reset, then a
`gained` event with duration 0, all for the same browser `AppInfo`. -/
def sendBrowserTabChangeEvent (s : PluginState) (app : AppInfo) (now : Nat) :
    PluginState × List FocusEventReq :=
  ({ s with focus_start_time := now },
   [⟨app, EventType.lost, now - s.focus_start_time⟩,
    ⟨app, EventType.gained, 0⟩])

/-- `CheckForBrowserTabChanges`: one poll tick.  `procInfo` is the
inspection result for the currently focused window and `tab` the
extractor's output for its title.  A non-browser process clears the whole
tab-identity map; the first observation of a browser stores its key
silently; a changed key synthesizes the `lost`/`gained` pair and stores
the new key; an unchanged key does nothing. -/
def checkForBrowserTabChanges (s : PluginState) (procInfo : ProcessInfo)
    (tab : BrowserTabInfo) (now : Nat) : PluginState × List FocusEventReq :=
  if s.is_tracking = false ∨ s.current_process_id = 0 then (s, [])
  else if s.current_focused_window = 0 then (s, [])
  else if procInfo.processId = 0 then (s, [])
  else if isBrowserProcess procInfo.processName procInfo.executablePath = false then
    ({ s with last_browser_tab_info := [] }, [])
  else
    let key := tabComparisonKey tab procInfo.windowTitle
    match lookupTab s.last_browser_tab_info procInfo.executablePath with
    | some lastKey =>
        if lastKey ≠ key then
          let pair := sendBrowserTabChangeEvent s (createAppInfo procInfo) now
          let m := setTab pair.1.last_browser_tab_info procInfo.executablePath key
          ({ pair.1 with last_browser_tab_info := m }, pair.2)
        else (s, [])
    | none =>
        let m := setTab s.last_browser_tab_info procInfo.executablePath key
        ({ s with last_browser_tab_info := m }, [])

/-! ## Invocation sequences -/

/-- One externally triggered invocation of the tracker, together with the
environment data (inspection results, extractor output, clock reading,
fresh session id) consumed by that invocation. -/
inductive Invocation where
  | focusChanged (hwnd : Nat) (procInfo prevProcInfo : ProcessInfo) (now : Nat)
  | tabPoll (procInfo : ProcessInfo) (tab : BrowserTabInfo) (now : Nat)
  | start (newSessionId : String) (fgWindow : Nat) (fgInfo : ProcessInfo) (now : Nat)
  | stop (fgInfo : ProcessInfo) (now : Nat)

/-- Dispatch one invocation. -/
def step (s : PluginState) : Invocation → PluginState × List FocusEventReq
  | .focusChanged hwnd p q now => onWindowFocusChanged s hwnd p q now
  | .tabPoll p tab now => checkForBrowserTabChanges s p tab now
  | .start sid w p now => startTracking s sid w p now
  | .stop p now => stopTracking s p now

/-- Run a sequence of invocations, collecting every emitted event in
order. -/
def run (s : PluginState) : List Invocation → PluginState × List FocusEventReq
  | [] => (s, [])
  | i :: rest =>
      ((run (step s i).1 rest).1, (step s i).2 ++ (run (step s i).1 rest).2)

/-- Number of events of a given type in an emission list. -/
def countType (t : EventType) (evs : List FocusEventReq) : Nat :=
  evs.countP (fun e => decide (e.eventType = t))

/-- 1 when a session is open while tracking, else 0. -/
def openCount (s : PluginState) : Nat :=
  if s.is_tracking = true ∧ s.current_process_id ≠ 0 then 1 else 0

/-- While stopped, no session is recorded. -/
def stoppedImpliesClosed (s : PluginState) : Prop :=
  s.is_tracking = false → s.current_process_id = 0

/-! ## C1: focus-change case analysis -/

/-- C1: while tracking, a focus-change invocation (i) emits nothing and
changes no state when process resolution yields id 0; (ii) when a session
is open and the resolved id differs, emits `lost` for the old session with
duration `now - focusStartTime` followed by `gained` with duration 0 for
the replaced session (`processId`, `windowHandle`, `focusStartTime = now`);
(iii) when no session is open and the resolved id is nonzero, opens the
session and emits only the `gained` event; (iv) when the resolved id
equals the recorded one, emits nothing and leaves the session unchanged. -/
theorem focus_change_case_analysis (s : PluginState) (hwnd : Nat)
    (p q : ProcessInfo) (now : Nat)
    (htr : s.is_tracking = true) (hw : hwnd ≠ 0) :
    (p.processId = 0 → onWindowFocusChanged s hwnd p q now = (s, []))
    ∧ (p.processId ≠ 0 → s.current_process_id ≠ 0 → s.current_process_id ≠ p.processId →
        onWindowFocusChanged s hwnd p q now =
          ({ s with current_process_id := p.processId
                    current_focused_window := hwnd
                    focus_start_time := now },
           [⟨createAppInfo q, EventType.lost, now - s.focus_start_time⟩,
            ⟨createAppInfo p, EventType.gained, 0⟩]))
    ∧ (p.processId ≠ 0 → s.current_process_id = 0 →
        onWindowFocusChanged s hwnd p q now =
          ({ s with current_process_id := p.processId
                    current_focused_window := hwnd
                    focus_start_time := now },
           [⟨createAppInfo p, EventType.gained, 0⟩]))
    ∧ (p.processId ≠ 0 → s.current_process_id = p.processId →
        onWindowFocusChanged s hwnd p q now = (s, [])) := by
  refine ⟨?_, ?_, ?_, ?_⟩
  · intro h1
    simp [onWindowFocusChanged, htr, hw, h1]
  · intro h1 h2 h3
    simp [onWindowFocusChanged, htr, hw, h1, h2, h3]
  · intro h1 h2
    have h3 : (0 : Nat) ≠ p.processId := fun hh => h1 hh.symm
    simp [onWindowFocusChanged, htr, hw, h1, h2, h3]
  · intro h1 h2
    simp [onWindowFocusChanged, htr, hw, h1, h2]

/-- Witness for C1 at a concrete state: a redundant notification (same
process id) emits nothing and changes nothing. -/
def c1state : PluginState :=
  { is_tracking := true
    current_process_id := 7
    current_focused_window := 3
    focus_start_time := 2
    session_id := "s"
    last_browser_tab_info := []
    event_queue := [] }

/-- Concrete inspection result used by the C1 witness. -/
def c1proc : ProcessInfo :=
  { processId := 7, executablePath := "C:\x5capp.exe", processName := "app.exe",
    windowTitle := "App" }

/-- C1 witness: the theorem applied at `c1state` with a redundant
notification. -/
theorem focus_change_case_analysis_witness :
    c1state.is_tracking = true ∧ (3 : Nat) ≠ 0 ∧ c1proc.processId ≠ 0
    ∧ c1state.current_process_id = c1proc.processId
    ∧ onWindowFocusChanged c1state 3 c1proc c1proc 10 = (c1state, []) :=
  ⟨rfl, by decide, by decide, rfl,
   (focus_change_case_analysis c1state 3 c1proc c1proc 10 rfl (by decide)).2.2.2
     (by decide) rfl⟩

/-! ## C4: stopping emits one final lost event; repeated Stop/Start no-ops -/

/-- C4: stopping while tracking with an open session emits exactly one
final `lost` event with the elapsed duration and clears the session
(`processId := 0`, session id cleared); a second `Stop` (and any `Stop`
while stopped, or `Start` while tracking) is a no-op emitting nothing. -/
theorem stop_final_lost (s : PluginState) (p p2 q : ProcessInfo) (now now2 : Nat)
    (sid : String) (w : Nat)
    (htr : s.is_tracking = true) (hpid : s.current_process_id ≠ 0) :
    stopTracking s p now =
      ({ s with is_tracking := false, event_queue := [], last_browser_tab_info := [],
                current_process_id := 0, session_id := "" },
       [⟨createAppInfo p, EventType.lost, now - s.focus_start_time⟩])
    ∧ stopTracking (stopTracking s p now).1 p2 now2 = ((stopTracking s p now).1, [])
    ∧ (∀ s2 : PluginState, s2.is_tracking = false → stopTracking s2 p2 now2 = (s2, []))
    ∧ (∀ s2 : PluginState, s2.is_tracking = true → startTracking s2 sid w q now2 = (s2, [])) := by
  refine ⟨?_, ?_, ?_, ?_⟩
  · simp [stopTracking, htr, hpid]
  · simp [stopTracking, htr, hpid]
  · intro s2 h2
    simp [stopTracking, h2]
  · intro s2 h2
    simp [startTracking, h2]

/-- C4 witness: the theorem applied at `c1state`. -/
theorem stop_final_lost_witness :
    c1state.is_tracking = true ∧ c1state.current_process_id ≠ 0
    ∧ stopTracking c1state c1proc 10 =
        ({ c1state with is_tracking := false, event_queue := [],
                        last_browser_tab_info := [],
                        current_process_id := 0, session_id := "" },
         [⟨createAppInfo c1proc, EventType.lost, 10 - c1state.focus_start_time⟩]) :=
  ⟨rfl, by decide,
   (stop_final_lost c1state c1proc c1proc c1proc 10 11 "x" 1 rfl (by decide)).1⟩

/-! ## C5: starting from Stopped emits exactly one initial gained event -/

/-- C5: starting from the stopped state when a focusable foreground window
exists (non-null handle resolving to a nonzero process id) emits exactly
one initial `gained` event with duration 0 and opens the session for that
window's process. -/
theorem start_initial_gained (s : PluginState) (sid : String) (w : Nat)
    (p : ProcessInfo) (now : Nat)
    (hstopped : s.is_tracking = false) (hw : w ≠ 0) (hp : p.processId ≠ 0) :
    startTracking s sid w p now =
      ({ s with is_tracking := true, session_id := sid,
                current_process_id := p.processId,
                current_focused_window := w,
                focus_start_time := now },
       [⟨createAppInfo p, EventType.gained, 0⟩]) := by
  simp [startTracking, sendCurrentFocusEvent, hstopped, hw, hp]

/-- Concrete stopped state for the C5 witness. -/
def c5state : PluginState :=
  { is_tracking := false
    current_process_id := 0
    current_focused_window := 0
    focus_start_time := 0
    session_id := ""
    last_browser_tab_info := []
    event_queue := [] }

/-- C5 witness: the theorem applied at `c5state`. -/
theorem start_initial_gained_witness :
    c5state.is_tracking = false ∧ (4 : Nat) ≠ 0 ∧ c1proc.processId ≠ 0
    ∧ startTracking c5state "sid" 4 c1proc 20 =
        ({ c5state with is_tracking := true, session_id := "sid",
                        current_process_id := c1proc.processId,
                        current_focused_window := 4,
                        focus_start_time := 20 },
         [⟨createAppInfo c1proc, EventType.gained, 0⟩]) :=
  ⟨rfl, by decide, by decide,
   start_initial_gained c5state "sid" 4 c1proc 20 rfl (by decide) (by decide)⟩

/-! ## C6: delivered events respect the configured app filters -/

/-- C6: every event that passes the `shouldTrackApp` filter applied by
`SendFocusEvent` has an identifier outside the excluded set, inside the
included set when that set is non-empty, and (when system apps are not
included) a final path component outside the fixed system denylist. -/
theorem delivered_respects_filters (config : FocusTrackerConfig)
    (evs : List FocusEventReq) (e : FocusEventReq)
    (h : e ∈ deliveredEvents config evs) :
    config.excludedApps.contains e.app.identifier = false
    ∧ (config.includedApps ≠ [] → config.includedApps.contains e.app.identifier = true)
    ∧ (config.includeSystemApps = false →
        kSystemApps.contains (afterLastBackslash e.app.identifier) = false) := by
  have hs : shouldTrackApp config e.app = true := (List.mem_filter.mp h).2
  unfold shouldTrackApp at hs
  split_ifs at hs with h1 h2 h3
  refine ⟨?_, ?_, ?_⟩
  · simpa using h1
  · intro hne
    rcases Bool.eq_false_or_eq_true (config.includedApps.contains e.app.identifier) with hb | hb
    · exact hb
    · exact absurd ⟨hne, hb⟩ h2
  · intro hsys
    rcases Bool.eq_false_or_eq_true
        (kSystemApps.contains (afterLastBackslash e.app.identifier)) with hb | hb
    · exact absurd ⟨hsys, hb⟩ h3
    · exact hb

/-- Concrete config for the C6 witness: one excluded app, no included
set, system apps filtered. -/
def c6config : FocusTrackerConfig :=
  { updateIntervalMs := 500, includeMetadata := false, includeSystemApps := false,
    enableBrowserTabTracking := false,
    excludedApps := ["C:\x5cbad.exe"], includedApps := [] }

/-- Concrete delivered event for the C6 witness. -/
def c6event : FocusEventReq :=
  ⟨{ name := "App", identifier := "C:\x5capp.exe", processId := 7,
     executablePath := "C:\x5capp.exe" }, EventType.gained, 0⟩

/-- C6 witness: the theorem applied to a concrete delivered event. -/
theorem delivered_respects_filters_witness :
    c6event ∈ deliveredEvents c6config [c6event]
    ∧ c6config.excludedApps.contains c6event.app.identifier = false :=
  ⟨by decide, (delivered_respects_filters c6config [c6event] c6event (by decide)).1⟩

/-! ## C2: gained/lost balance invariant -/

theorem countType_nil (t : EventType) : countType t [] = 0 := rfl

theorem countType_cons (t : EventType) (e : FocusEventReq) (l : List FocusEventReq) :
    countType t (e :: l) = countType t l + (if e.eventType = t then 1 else 0) := by
  unfold countType
  rw [List.countP_cons]
  by_cases h : e.eventType = t <;> simp [h]

theorem countType_append (t : EventType) (l1 l2 : List FocusEventReq) :
    countType t (l1 ++ l2) = countType t l1 + countType t l2 := by
  unfold countType
  exact List.countP_append _ _ _

/-- Each invocation preserves the balance `gained - lost = openCount` and
the fact that a stopped tracker has no recorded session. -/
theorem step_balance (s : PluginState) (i : Invocation) (hc : stoppedImpliesClosed s) :
    countType EventType.gained (step s i).2 + openCount s
      = countType EventType.lost (step s i).2 + openCount (step s i).1
    ∧ stoppedImpliesClosed (step s i).1 := by
  cases i with
  | focusChanged hwnd p q now =>
      simp only [step]
      unfold onWindowFocusChanged
      by_cases h1 : s.is_tracking = false ∨ hwnd = 0
      · refine ⟨by simp [h1, countType_nil], ?_⟩
        simpa [h1] using hc
      · have htr : s.is_tracking = true := by
          rcases Bool.eq_false_or_eq_true s.is_tracking with hb | hb
          · exact hb
          · exact absurd (Or.inl hb) h1
        have hnw : ¬ hwnd = 0 := fun hh => h1 (Or.inr hh)
        by_cases h2 : p.processId = 0
        · exact ⟨by simp [htr, hnw, h2, countType_nil],
                 by simp [htr, hnw, h2, stoppedImpliesClosed]⟩
        · have h2' : ¬ (0 : Nat) = p.processId := fun hh => h2 hh.symm
          by_cases h3 : s.current_process_id = p.processId
          · exact ⟨by simp [htr, hnw, h2, h3, countType_nil],
                   by simp [htr, hnw, h2, h3, stoppedImpliesClosed]⟩
          · by_cases h4 : s.current_process_id = 0
            · exact ⟨by simp [htr, hnw, h2, h2', h3, h4, countType_cons,
                              countType_nil, openCount],
                     by simp [htr, hnw, h2, h2', h3, h4, stoppedImpliesClosed]⟩
            · exact ⟨by simp [htr, hnw, h2, h2', h3, h4, countType_cons,
                              countType_nil, openCount],
                     by simp [htr, hnw, h2, h2', h3, h4, stoppedImpliesClosed]⟩
  | tabPoll p tab now =>
      simp only [step]
      unfold checkForBrowserTabChanges
      by_cases h1 : s.is_tracking = false ∨ s.current_process_id = 0
      · refine ⟨by simp [h1, countType_nil], ?_⟩
        simpa [h1] using hc
      · have htr : s.is_tracking = true := by
          rcases Bool.eq_false_or_eq_true s.is_tracking with hb | hb
          · exact hb
          · exact absurd (Or.inl hb) h1
        have hpid : ¬ s.current_process_id = 0 := fun hh => h1 (Or.inr hh)
        by_cases h2 : s.current_focused_window = 0
        · exact ⟨by simp [htr, hpid, h2, countType_nil],
                 by simp [htr, hpid, h2, stoppedImpliesClosed]⟩
        · by_cases h3 : p.processId = 0
          · exact ⟨by simp [htr, hpid, h2, h3, countType_nil],
                   by simp [htr, hpid, h2, h3, stoppedImpliesClosed]⟩
          · by_cases h4 : isBrowserProcess p.processName p.executablePath = false
            · exact ⟨by simp [htr, hpid, h2, h3, h4, countType_nil, openCount],
                     by simp [htr, hpid, h2, h3, h4, stoppedImpliesClosed]⟩
            · cases hlk : lookupTab s.last_browser_tab_info p.executablePath with
              | none =>
                  exact ⟨by simp [htr, hpid, h2, h3, h4, hlk, countType_nil,
                                  openCount],
                         by simp [htr, hpid, h2, h3, h4, hlk,
                                  stoppedImpliesClosed]⟩
              | some k =>
                  by_cases h5 : k ≠ tabComparisonKey tab p.windowTitle
                  · exact ⟨by simp [htr, hpid, h2, h3, h4, hlk, h5,
                                    sendBrowserTabChangeEvent, countType_cons,
                                    countType_nil, openCount],
                           by simp [htr, hpid, h2, h3, h4, hlk, h5,
                                    sendBrowserTabChangeEvent,
                                    stoppedImpliesClosed]⟩
                  · exact ⟨by simp [htr, hpid, h2, h3, h4, hlk, h5,
                                    countType_nil],
                           by simp [htr, hpid, h2, h3, h4, hlk, h5,
                                    stoppedImpliesClosed]⟩
  | start sid w p now =>
      simp only [step]
      unfold startTracking sendCurrentFocusEvent
      by_cases h1 : s.is_tracking = true
      · refine ⟨by simp [h1, countType_nil], ?_⟩
        simpa [h1] using hc
      · have htr : s.is_tracking = false := by
          rcases Bool.eq_false_or_eq_true s.is_tracking with hb | hb
          · exact absurd hb h1
          · exact hb
        have hpid : s.current_process_id = 0 := hc htr
        by_cases h2 : w = 0
        · exact ⟨by simp [htr, h2, hpid, countType_nil, openCount],
                 by simp [htr, h2, hpid, stoppedImpliesClosed]⟩
        · by_cases h3 : p.processId = 0
          · exact ⟨by simp [htr, h2, h3, hpid, countType_nil, openCount],
                   by simp [htr, h2, h3, hpid, stoppedImpliesClosed]⟩
          · exact ⟨by simp [htr, h2, h3, hpid, countType_cons, countType_nil,
                            openCount],
                   by simp [htr, h2, h3, hpid, stoppedImpliesClosed]⟩
  | stop p now =>
      simp only [step]
      unfold stopTracking
      by_cases h1 : s.is_tracking = false
      · refine ⟨by simp [h1, countType_nil], ?_⟩
        simpa [h1] using hc
      · have htr : s.is_tracking = true := by
          rcases Bool.eq_false_or_eq_true s.is_tracking with hb | hb
          · exact hb
          · exact absurd hb h1
        by_cases h2 : s.current_process_id = 0
        · exact ⟨by simp [htr, h2, countType_nil, openCount],
                 by simp [htr, h2, stoppedImpliesClosed]⟩
        · exact ⟨by simp [htr, h2, countType_cons, countType_nil, openCount],
                 by simp [htr, h2, stoppedImpliesClosed]⟩

/-- The balance extends to every invocation sequence. -/
theorem run_balance (l : List Invocation) (s : PluginState)
    (hc : stoppedImpliesClosed s) :
    countType EventType.gained (run s l).2 + openCount s
      = countType EventType.lost (run s l).2 + openCount (run s l).1
    ∧ stoppedImpliesClosed (run s l).1 := by
  induction l generalizing s with
  | nil => exact ⟨by simp [run, countType_nil], hc⟩
  | cons i rest ih =>
      obtain ⟨hb, hcl⟩ := step_balance s i hc
      obtain ⟨hb', hcl'⟩ := ih (step s i).1 hcl
      refine ⟨?_, hcl'⟩
      simp only [run, countType_append]
      omega

/-- C2: over any invocation sequence from the stopped initial state, the
number of `gained` events equals the number of `lost` events, or exceeds
it by exactly one, the excess occurring only while tracking is active with
an open session. -/
theorem gained_lost_balance (l : List Invocation) :
    countType EventType.gained (run initialState l).2
      = countType EventType.lost (run initialState l).2
    ∨ (countType EventType.gained (run initialState l).2
        = countType EventType.lost (run initialState l).2 + 1
       ∧ (run initialState l).1.is_tracking = true
       ∧ (run initialState l).1.current_process_id ≠ 0) := by
  have h := run_balance l initialState (by intro h; rfl)
  have h0 : openCount initialState = 0 := rfl
  by_cases ho : (run initialState l).1.is_tracking = true
      ∧ (run initialState l).1.current_process_id ≠ 0
  · right
    refine ⟨?_, ho.1, ho.2⟩
    have h1 : openCount (run initialState l).1 = 1 := by simp [openCount, ho]
    omega
  · left
    have h1 : openCount (run initialState l).1 = 0 := by simp [openCount, ho]
    omega

/-! ## C3: FIFO exactly-once delivery through the channel -/

/-- C3: a sequence of events enqueued from a non-delivery thread (within
capacity) is delivered by a flush to the registered consumer exactly once
and in FIFO enqueue order; an event produced on the delivery thread is
handed to the consumer synchronously, leaving the queue untouched. -/
theorem channel_fifo_exactly_once {α : Type} (es : List α) (q : List α) (e : α)
    (b : Bool) (h : es.length ≤ kMaxQueueSize) :
    (flushEventQueue true (enqueueAll [] es)).1 = es
    ∧ (flushEventQueue true (enqueueAll [] es)).2 = []
    ∧ queueEvent true true q e = (q, [e])
    ∧ queueEvent false b q e = (queuePush q e, []) := by
  have h1 : enqueueAll ([] : List α) es = es := by
    rw [enqueueAll_nil_eq_takeLast]
    unfold takeLast
    rw [Nat.sub_eq_zero_of_le h, List.drop_zero]
  refine ⟨?_, rfl, ?_, ?_⟩
  · rw [h1]
    simp [flushEventQueue]
  · simp [queueEvent]
  · simp [queueEvent]

/-- C3 witness: three concrete events flow through the queue in order. -/
theorem channel_fifo_exactly_once_witness :
    ([1, 2, 3] : List Nat).length ≤ kMaxQueueSize
    ∧ (flushEventQueue true (enqueueAll [] ([1, 2, 3] : List Nat))).1 = [1, 2, 3] :=
  ⟨by simp [kMaxQueueSize],
   (channel_fifo_exactly_once [1, 2, 3] [] 0 true (by simp [kMaxQueueSize])).1⟩

/-! ## C8: overflow keeps the newest `capacity` events in order -/

/-- C8: enqueuing more than `kMaxQueueSize` events without a flush leaves
exactly the newest `kMaxQueueSize` events in the queue, in their original
enqueue order, the oldest excess having been dropped. -/
theorem queue_overflow_newest {α : Type} (es : List α)
    (h : kMaxQueueSize < es.length) :
    enqueueAll [] es = es.drop (es.length - kMaxQueueSize)
    ∧ (enqueueAll [] es).length = kMaxQueueSize
    ∧ es.take (es.length - kMaxQueueSize) ++ enqueueAll [] es = es := by
  have h1 : enqueueAll ([] : List α) es = es.drop (es.length - kMaxQueueSize) := by
    rw [enqueueAll_nil_eq_takeLast]
    rfl
  refine ⟨h1, ?_, ?_⟩
  · rw [h1, List.length_drop]
    omega
  · rw [h1, List.take_append_drop]

/-- C8 witness: 1001 enqueued events leave the newest 1000. -/
theorem queue_overflow_newest_witness :
    kMaxQueueSize < (List.replicate 1001 (0 : Nat)).length
    ∧ enqueueAll [] (List.replicate 1001 (0 : Nat))
        = (List.replicate 1001 (0 : Nat)).drop
            ((List.replicate 1001 (0 : Nat)).length - kMaxQueueSize) :=
  ⟨by rw [List.length_replicate, kMaxQueueSize]; omega,
   (queue_overflow_newest (List.replicate 1001 (0 : Nat))
      (by rw [List.length_replicate, kMaxQueueSize]; omega)).1⟩

/-! ## C9: queued events discarded by StopTracking (claim corrected) -/

/-- Concrete event sitting in the queue for the C9 counterexample. -/
def c9event : FocusEventReq :=
  ⟨{ name := "A", identifier := "C:\x5ca.exe", processId := 1,
     executablePath := "C:\x5ca.exe" }, EventType.gained, 0⟩

/-- Concrete inspection result used by the C9 theorems. -/
def c9proc : ProcessInfo :=
  { processId := 1, executablePath := "C:\x5ca.exe", processName := "a.exe",
    windowTitle := "A" }

/-- Tracking state with one event still queued. -/
def c9state : PluginState :=
  { is_tracking := true
    current_process_id := 0
    current_focused_window := 0
    focus_start_time := 0
    session_id := "s"
    last_browser_tab_info := []
    event_queue := [c9event] }

/-- C9 counterexample: queued events are discarded by operations other
than the drop-oldest overflow policy.  `StopTracking` empties the event
queue without delivering or emitting anything, and `FlushEventQueue` run
while no consumer is registered swaps the queue out and drops every entry
undelivered. -/
theorem stop_discards_queued_event :
    c9state.event_queue = [c9event]
    ∧ (stopTracking c9state c9proc 5).1.event_queue = []
    ∧ (stopTracking c9state c9proc 5).2 = []
    ∧ flushEventQueue false [c9event] = (([] : List FocusEventReq), []) := by
  refine ⟨rfl, ?_, ?_, rfl⟩ <;> simp [stopTracking, c9state]

theorem onWindowFocusChanged_queue_eq (s : PluginState) (hwnd : Nat)
    (p q : ProcessInfo) (now : Nat) :
    (onWindowFocusChanged s hwnd p q now).1.event_queue = s.event_queue := by
  unfold onWindowFocusChanged
  split_ifs <;> rfl

theorem checkForBrowserTabChanges_queue_eq (s : PluginState) (p : ProcessInfo)
    (tab : BrowserTabInfo) (now : Nat) :
    (checkForBrowserTabChanges s p tab now).1.event_queue = s.event_queue := by
  unfold checkForBrowserTabChanges sendBrowserTabChangeEvent
  repeat' split
  all_goals try rfl
  all_goals dsimp only
  all_goals split <;> rfl

theorem startTracking_queue_eq (s : PluginState) (sid : String) (w : Nat)
    (p : ProcessInfo) (now : Nat) :
    (startTracking s sid w p now).1.event_queue = s.event_queue := by
  unfold startTracking sendCurrentFocusEvent
  split_ifs <;> rfl

/-- C9 amended: the queue-touching operations of the pipeline are exactly
the ones enumerated here, and each either preserves queued events,
delivers them, or is one of the three discard paths.  A flush with a
registered consumer delivers every queued event and discards none; a
flush while no consumer is registered discards the whole queue (discard
path beyond overflow); a background-thread enqueue keeps everything but
the oldest overflow excess (the new queue is the newest-`kMaxQueueSize`
suffix of the old queue plus the event); a platform-thread enqueue leaves
the queue untouched; every invocation other than `Stop` leaves the queue
untouched; and `StopTracking` clears it, discarding its contents
undelivered.  A failed or delayed flush signal changes no queue state, so
it only postpones delivery. -/
theorem queue_discard_paths {α : Type} (q : List α) (e : α) (b : Bool)
    (s : PluginState) (i : Invocation) (p : ProcessInfo) (now : Nat)
    (hns : ∀ pf nf, i ≠ Invocation.stop pf nf) :
    (flushEventQueue true q).1 = q
    ∧ (flushEventQueue true q).2 = []
    ∧ flushEventQueue false q = (([] : List α), [])
    ∧ (queueEvent false b q e).1 = takeLast kMaxQueueSize (q ++ [e])
    ∧ (queueEvent true b q e).1 = q
    ∧ (step s i).1.event_queue = s.event_queue
    ∧ (stopTracking s p now).1.event_queue
        = (if s.is_tracking = true then [] else s.event_queue) := by
  refine ⟨by simp [flushEventQueue], rfl, rfl, ?_, by simp [queueEvent], ?_, ?_⟩
  · simp [queueEvent]
    exact queuePush_eq_takeLast q e
  · cases i with
    | focusChanged hwnd pi qi n => exact onWindowFocusChanged_queue_eq s hwnd pi qi n
    | tabPoll pi tab n => exact checkForBrowserTabChanges_queue_eq s pi tab n
    | start sid w pi n => exact startTracking_queue_eq s sid w pi n
    | stop pf nf => exact absurd rfl (hns pf nf)
  · by_cases htr : s.is_tracking = true
    · simp [stopTracking, htr]
    · have hf : s.is_tracking = false := by
        rcases Bool.eq_false_or_eq_true s.is_tracking with hb | hb
        · exact absurd hb htr
        · exact hb
      simp [stopTracking, hf]

/-- C9 witness for the amended statement, at the concrete queued state and
a concrete non-stop invocation. -/
theorem queue_discard_paths_witness :
    (∀ pf nf, Invocation.focusChanged 1 c9proc c9proc 3 ≠ Invocation.stop pf nf)
    ∧ (flushEventQueue true [c9event]).1 = [c9event]
    ∧ flushEventQueue false [c9event] = (([] : List FocusEventReq), [])
    ∧ (step c9state (Invocation.focusChanged 1 c9proc c9proc 3)).1.event_queue
        = c9state.event_queue
    ∧ (stopTracking c9state c9proc 5).1.event_queue
        = (if c9state.is_tracking = true then [] else c9state.event_queue) :=
  by
  have hns : ∀ pf nf, Invocation.focusChanged 1 c9proc c9proc 3 ≠ Invocation.stop pf nf := by
    intro pf nf h
    cases h
  have h := queue_discard_paths [c9event] c9event true c9state
    (Invocation.focusChanged 1 c9proc c9proc 3) c9proc 5 hns
  exact ⟨hns, h.1, h.2.2.1, h.2.2.2.2.2.1, h.2.2.2.2.2.2⟩

/-! ## C7: tab-change detection on a focused browser -/

theorem lookupTab_setTab_self (m : List (String × String)) (k v : String) :
    lookupTab (setTab m k v) k = some v := by
  induction m with
  | nil => simp [setTab, lookupTab]
  | cons kv rest ih =>
      by_cases h : kv.1 = k
      · simp [setTab, lookupTab, h]
      · simp [setTab, lookupTab, h, ih]

/-- C7: on a browser poll tick the comparison key is the extracted domain,
else the url, else the title with digits/'.'/',' removed, else the raw
window title; a first observation for this executable stores the key and
emits nothing; a later observation with an unchanged key emits nothing and
changes nothing; a changed key emits exactly one `lost`/`gained` pair (the
`lost` carrying the accumulated duration, `focusStartTime` reset to `now`,
the `gained` carrying duration 0) and replaces the stored key with the new
one. -/
theorem tab_poll_key_and_events (s : PluginState) (p : ProcessInfo)
    (tab : BrowserTabInfo) (now : Nat)
    (htr : s.is_tracking = true) (hpid : s.current_process_id ≠ 0)
    (hw : s.current_focused_window ≠ 0) (hp : p.processId ≠ 0)
    (hb : isBrowserProcess p.processName p.executablePath = true) :
    tabComparisonKey tab p.windowTitle
      = (if tab.domain ≠ "" then tab.domain
         else if tab.url ≠ "" then tab.url
         else if tab.title ≠ "" then sanitizeTitle tab.title
         else p.windowTitle)
    ∧ (lookupTab s.last_browser_tab_info p.executablePath = none →
        checkForBrowserTabChanges s p tab now =
          ({ s with last_browser_tab_info := setTab s.last_browser_tab_info p.executablePath (tabComparisonKey tab p.windowTitle) }, []))
    ∧ (∀ k0, lookupTab s.last_browser_tab_info p.executablePath = some k0 →
        k0 = tabComparisonKey tab p.windowTitle →
        checkForBrowserTabChanges s p tab now = (s, []))
    ∧ (∀ k0, lookupTab s.last_browser_tab_info p.executablePath = some k0 →
        k0 ≠ tabComparisonKey tab p.windowTitle →
        (checkForBrowserTabChanges s p tab now).2 =
          [⟨createAppInfo p, EventType.lost, now - s.focus_start_time⟩,
           ⟨createAppInfo p, EventType.gained, 0⟩]
        ∧ (checkForBrowserTabChanges s p tab now).1.focus_start_time = now
        ∧ lookupTab (checkForBrowserTabChanges s p tab now).1.last_browser_tab_info p.executablePath
            = some (tabComparisonKey tab p.windowTitle)) := by
  refine ⟨rfl, ?_, ?_, ?_⟩
  · intro hlk
    simp [checkForBrowserTabChanges, htr, hpid, hw, hp, hb, hlk]
  · intro k0 hlk hk
    simp [checkForBrowserTabChanges, htr, hpid, hw, hp, hb, hlk, hk]
  · intro k0 hlk hk
    refine ⟨?_, ?_, ?_⟩
    · simp [checkForBrowserTabChanges, htr, hpid, hw, hp, hb, hlk, hk,
            sendBrowserTabChangeEvent]
    · simp [checkForBrowserTabChanges, htr, hpid, hw, hp, hb, hlk, hk,
            sendBrowserTabChangeEvent]
    · simp [checkForBrowserTabChanges, htr, hpid, hw, hp, hb, hlk, hk,
            sendBrowserTabChangeEvent, lookupTab_setTab_self]

/-- Tracking state focused on a browser whose stored key is `a.com`, for
the C7 witness. -/
def c7state : PluginState :=
  { is_tracking := true
    current_process_id := 7
    current_focused_window := 1
    focus_start_time := 3
    session_id := "s"
    last_browser_tab_info := [("C:\x5cchrome.exe", "a.com")]
    event_queue := [] }

/-- Inspection result for the focused Chrome window in the C7 witness. -/
def c7proc : ProcessInfo :=
  { processId := 7, executablePath := "C:\x5cchrome.exe",
    processName := "chrome.exe", windowTitle := "b.com - Google Chrome" }

/-- Extractor output whose domain changed to `b.com`. -/
def c7tab : BrowserTabInfo :=
  { domain := "b.com", url := "https://b.com", title := "b.com",
    browserType := "chrome", valid := true }

/-- C7 witness: a domain change from `a.com` to `b.com` emits exactly one
`lost`/`gained` pair and carries `b.com` forward as the stored key. -/
theorem tab_poll_key_and_events_witness :
    c7state.is_tracking = true ∧ c7state.current_process_id ≠ 0
    ∧ c7state.current_focused_window ≠ 0 ∧ c7proc.processId ≠ 0
    ∧ isBrowserProcess c7proc.processName c7proc.executablePath = true
    ∧ lookupTab c7state.last_browser_tab_info c7proc.executablePath = some "a.com"
    ∧ "a.com" ≠ tabComparisonKey c7tab c7proc.windowTitle
    ∧ ((checkForBrowserTabChanges c7state c7proc c7tab 10).2 =
        [⟨createAppInfo c7proc, EventType.lost, 10 - c7state.focus_start_time⟩,
         ⟨createAppInfo c7proc, EventType.gained, 0⟩]
       ∧ (checkForBrowserTabChanges c7state c7proc c7tab 10).1.focus_start_time = 10
       ∧ lookupTab (checkForBrowserTabChanges c7state c7proc c7tab 10).1.last_browser_tab_info c7proc.executablePath
           = some (tabComparisonKey c7tab c7proc.windowTitle)) :=
  ⟨rfl, by decide, by decide, by decide, by decide, by decide, by decide,
   (tab_poll_key_and_events c7state c7proc c7tab 10 rfl (by decide) (by decide)
      (by decide) (by decide)).2.2.2 "a.com" (by decide) (by decide)⟩

/-! ## C10: non-browser tick clears the whole tab map (claim corrected) -/

/-- Tracking state holding stored tab keys for two different browsers. -/
def c10state : PluginState :=
  { is_tracking := true
    current_process_id := 7
    current_focused_window := 1
    focus_start_time := 0
    session_id := "s"
    last_browser_tab_info := [("C:\x5cchrome.exe", "a.com"), ("C:\x5cmsedge.exe", "b.com")]
    event_queue := [] }

/-- Inspection result of a focused non-browser process. -/
def c10proc : ProcessInfo :=
  { processId := 7, executablePath := "C:\x5cnotepad.exe",
    processName := "notepad.exe", windowTitle := "Notes" }

/-- Empty extractor output for the C10 theorems. -/
def c10tab : BrowserTabInfo :=
  { domain := "", url := "", title := "", browserType := "", valid := false }

/-- C10 counterexample: a poll tick on a non-browser process erases the
stored entry of a *different* application identifier (`msedge.exe`) as
well — the whole map is cleared, not just the focused process's entry. -/
theorem tab_map_clear_counterexample :
    isBrowserProcess c10proc.processName c10proc.executablePath = false
    ∧ lookupTab c10state.last_browser_tab_info "C:\x5cmsedge.exe" = some "b.com"
    ∧ (checkForBrowserTabChanges c10state c10proc c10tab 5).1.last_browser_tab_info = []
    ∧ lookupTab (checkForBrowserTabChanges c10state c10proc c10tab 5).1.last_browser_tab_info "C:\x5cmsedge.exe" = none := by
  decide

/-- C10 amended: a poll tick whose focused process is not classified as a
browser clears the entire last-tab-identity map (every application's
entry), emits nothing, and changes nothing else. -/
theorem tab_map_clear_amended (s : PluginState) (p : ProcessInfo)
    (tab : BrowserTabInfo) (now : Nat)
    (htr : s.is_tracking = true) (hpid : s.current_process_id ≠ 0)
    (hw : s.current_focused_window ≠ 0) (hp : p.processId ≠ 0)
    (hnb : isBrowserProcess p.processName p.executablePath = false) :
    checkForBrowserTabChanges s p tab now =
      ({ s with last_browser_tab_info := [] }, []) := by
  simp [checkForBrowserTabChanges, htr, hpid, hw, hp, hnb]

/-- C10 witness for the amended statement. -/
theorem tab_map_clear_amended_witness :
    c10state.is_tracking = true ∧ c10state.current_process_id ≠ 0
    ∧ c10state.current_focused_window ≠ 0 ∧ c10proc.processId ≠ 0
    ∧ isBrowserProcess c10proc.processName c10proc.executablePath = false
    ∧ checkForBrowserTabChanges c10state c10proc c10tab 5 =
        ({ c10state with last_browser_tab_info := [] }, []) :=
  ⟨rfl, by decide, by decide, by decide, by decide,
   tab_map_clear_amended c10state c10proc c10tab 5 rfl (by decide) (by decide)
     (by decide) (by decide)⟩

end AppFocusTracker
